import Mathlib

/-!
Verification of the authentication/token subsystem of the alerts-service
backend (TypeScript sources: src/utils/token.ts, src/middlewares auth file,
src/interfaces/index.ts, src/config/constants.ts).

Modelling conventions.
JavaScript objects are association lists from field names to a small JS
value type; field lookup is first-match, mirroring unique object keys.
JWT wire strings are modelled symbolically: a string either parses as a
well-formed JWT (carrying its claims object and bound to the secret that
signed it) or it is garbage that the jsonwebtoken decoder rejects.  The
jsonwebtoken library functions sign / verify / decode are modelled by
their documented contract on this symbolic type (verify checks the
secret, the nbf claim, then expiry with now >= exp counting as expired;
decode never checks the signature).  Machine time is an integer count of
seconds.  The single fixed HS256 algorithm is common to all operations
and is therefore not represented.
-/

/-! Character-level string primitives.  The Lean core String functions
(trim, startsWith, drop, toNat?) are implemented over byte positions by
well-founded recursion and do not evaluate inside the kernel, so the JS
string primitives the source uses are given equivalent executable
definitions over the character list of the string. -/

/-- JS s.length == 0 / falsiness of a string. -/
def jsIsEmpty (s : String) : Bool :=
  s.data.isEmpty

/-- JS String.prototype.startsWith. -/
def jsStartsWith (s p : String) : Bool :=
  p.data.isPrefixOf s.data

/-- JS String.prototype.slice(n) for a non-negative index. -/
def jsDrop (s : String) (n : Nat) : String :=
  String.mk (s.data.drop n)

/-- Strip leading and trailing whitespace from a character list. -/
def trimChars (l : List Char) : List Char :=
  ((l.dropWhile Char.isWhitespace).reverse.dropWhile Char.isWhitespace).reverse

/-- JS String.prototype.trim. -/
def jsTrim (s : String) : String :=
  String.mk (trimChars s.data)

/-- Numeric value of a digit string. -/
def digitsToNat (l : List Char) : Nat :=
  l.foldl (fun acc c => 10 * acc + (c.toNat - 48)) 0

/-- JS Number(s) on a string, partially modelled: an optional sign
followed by digits; `none` stands for NaN. -/
def strToInt? (s : String) : Option Int :=
  match s.data with
  | [] => some 0
  | '-' :: ds =>
    if !ds.isEmpty && ds.all Char.isDigit then some (-(Int.ofNat (digitsToNat ds))) else none
  | ds =>
    if ds.all Char.isDigit then some (Int.ofNat (digitsToNat ds)) else none

/-- A JavaScript runtime value, restricted to the shapes the auth
subsystem inspects. -/
inductive JSVal where
  | str (s : String)
  | num (n : Int)
  | boolean (b : Bool)
  | null
deriving DecidableEq, Repr

/-- A JavaScript object: an association list of named fields. -/
abbrev JSObj := List (String × JSVal)

/-- Field lookup on a JS object (first matching key wins, as object keys
are unique). -/
def getField (o : JSObj) (k : String) : Option JSVal :=
  (o.find? (fun kv => kv.1 == k)).map (fun kv => kv.2)

/-- JavaScript truthiness of a value: empty string, 0, false and null are
falsy. -/
def jsTruthy : JSVal → Bool
  | JSVal.str s => !(jsIsEmpty s)
  | JSVal.num n => decide (n ≠ 0)
  | JSVal.boolean b => b
  | JSVal.null => false

/-- JavaScript numeric coercion, partially modelled: `none` stands for
NaN (every comparison against NaN is false). -/
def jsToNumber : JSVal → Option Int
  | JSVal.num n => some n
  | JSVal.boolean b => some (if b then 1 else 0)
  | JSVal.null => some 0
  | JSVal.str s => strToInt? s

/-- Type guard from src/interfaces/index.ts: a decoded payload is a user
token iff a string-typed userId field is present. -/
def isUserToken (o : JSObj) : Bool :=
  match getField o ("userId") with
  | some (JSVal.str _) => true
  | _ => false

/-- Type guard from src/interfaces/index.ts: a decoded payload is a
system token iff the system field is exactly true and a service field is
present. -/
def isSystemToken (o : JSObj) : Bool :=
  (match getField o ("system") with
   | some (JSVal.boolean true) => true
   | _ => false)
  && (getField o ("service")).isSome

/-- The jsonwebtoken library's view of a string: either a well-formed
JWT wire string carrying a claims object and signed with a secret, or an
arbitrary string the decoder rejects. -/
inductive TokenStr where
  | signed (claims : JSObj) (secret : String)
  | garbage (s : String)
deriving DecidableEq, Repr

/-- Whether `token?.trim()` is falsy for this token: a well-formed JWT
wire string is never blank; a garbage string is blank when it trims to
empty. -/
def tokenBlank : TokenStr → Bool
  | TokenStr.signed _ _ => false
  | TokenStr.garbage s => jsIsEmpty (jsTrim s)

/-- jwt.decode: parses the claims without checking the signature;
returns null (here `none`) on anything unparseable. -/
def jwtDecode : TokenStr → Option JSObj
  | TokenStr.signed c _ => some c
  | TokenStr.garbage _ => none

/-- The error classes jsonwebtoken's verify can throw. -/
inductive JwtVerifyErr where
  | tokenExpired
  | jsonWebTokenErr
  | notBeforeErr
deriving DecidableEq, Repr

/-- jwt.verify at time `now`: rejects unparseable strings and wrong
secrets as JsonWebTokenError, a future nbf claim as NotBeforeError, and
a passed expiry (now >= exp) as TokenExpiredError; a non-numeric nbf or
exp claim is rejected as JsonWebTokenError (invalid claim value). -/
def jwtVerify (t : TokenStr) (secret : String) (now : Int) : Except JwtVerifyErr JSObj :=
  match t with
  | TokenStr.garbage _ => Except.error JwtVerifyErr.jsonWebTokenErr
  | TokenStr.signed c s =>
    if s = secret then
      match getField c ("nbf") with
      | some (JSVal.num n) =>
        if now < n then Except.error JwtVerifyErr.notBeforeErr
        else
          match getField c ("exp") with
          | some (JSVal.num e) =>
            if now ≥ e then Except.error JwtVerifyErr.tokenExpired else Except.ok c
          | some _ => Except.error JwtVerifyErr.jsonWebTokenErr
          | none => Except.ok c
      | some _ => Except.error JwtVerifyErr.jsonWebTokenErr
      | none =>
        match getField c ("exp") with
        | some (JSVal.num e) =>
          if now ≥ e then Except.error JwtVerifyErr.tokenExpired else Except.ok c
        | some _ => Except.error JwtVerifyErr.jsonWebTokenErr
        | none => Except.ok c
    else Except.error JwtVerifyErr.jsonWebTokenErr

/-- The vercel/ms timespan parse used by jsonwebtoken for a string
expiresIn option, for the forms the repository uses: digits followed by
a unit (s, m, h, d), or bare digits read as milliseconds (floored to
seconds). Returns seconds. -/
def msParse (s : String) : Option Int :=
  if jsIsEmpty s then none
  else
    let digits := s.data.takeWhile Char.isDigit
    let unit := s.data.dropWhile Char.isDigit
    if digits.isEmpty then none
    else
      let n : Int := Int.ofNat (digitsToNat digits)
      match unit with
      | [] => some (n / 1000)
      | ['s'] => some n
      | ['m'] => some (60 * n)
      | ['h'] => some (3600 * n)
      | ['d'] => some (86400 * n)
      | _ => none

/-- JS property assignment on an object: replaces the value at an
existing key in place, else appends the new property at the end. -/
def setField (o : JSObj) (k : String) (v : JSVal) : JSObj :=
  match o with
  | [] => [(k, v)]
  | kv :: rest => if kv.1 == k then (k, v) :: rest else kv :: setField rest k v

/-- jwt.sign at time `now`: an expiresIn option combined with a
payload-supplied exp claim is a library throw; otherwise the reference
timestamp is a truthy payload iat when present (jsonwebtoken:
payload.iat is used instead of the real timestamp for computing exp) and
the signing time otherwise; the iat claim is written back as that
timestamp, and when an expiresIn timespan is given and parses, the exp
claim is the timestamp plus the timespan in seconds (serialized as null
when the timestamp does not coerce to a number); an unparseable timespan
is a library throw. -/
def jwtSign (payload : JSObj) (secret : String) (now : Int) (expiresIn : Option String) : Option TokenStr :=
  if expiresIn.isSome && (getField payload ("exp")).isSome then none
  else
    let timestampVal : JSVal :=
      match getField payload ("iat") with
      | some v => if jsTruthy v then v else JSVal.num now
      | none => JSVal.num now
    let withIat := setField payload ("iat") timestampVal
    match expiresIn with
    | none => some (TokenStr.signed withIat secret)
    | some s =>
      match msParse s with
      | some d =>
        match jsToNumber timestampVal with
        | some t => some (TokenStr.signed (withIat ++ [("exp", JSVal.num (t + d))]) secret)
        | none => some (TokenStr.signed (withIat ++ [("exp", JSVal.null)]) secret)
      | none => none

/-- The process environment variables the JWT configuration reads
(src/config/constants.ts). -/
structure ProcessEnv where
  JWT_SECRET : Option String
  JWT_EXPIRES_IN : Option String
deriving DecidableEq, Repr

/-- JavaScript `x || d` on an optional environment string: an absent or
empty variable yields the default. -/
def jsOr (v : Option String) (d : String) : String :=
  match v with
  | some s => if jsIsEmpty s then d else s
  | none => d

/-- JavaScript `s || d` on a string value. -/
def jsOrS (s : String) (d : String) : String :=
  if jsIsEmpty s then d else s

/-- ENV.JWT.SECRET from src/config/constants.ts:
process.env.JWT_SECRET || a hardcoded placeholder default. -/
def ENV_JWT_SECRET (env : ProcessEnv) : String :=
  jsOr env.JWT_SECRET ("your-super-secret-jwt-key-here")

/-- ENV.JWT.EXPIRES_IN from src/config/constants.ts:
process.env.JWT_EXPIRES_IN || a 24h default. -/
def ENV_JWT_EXPIRES_IN (env : ProcessEnv) : String :=
  jsOr env.JWT_EXPIRES_IN ("24h")

/-- Modelled from the spec: src/utils/httpError.ts is not among the
provided sources; per spec section 6 guards reject with status 401 and a
JSON error body, so an HttpError is modelled as a status code with a
message, `unauthorized` carrying 401 and `internalServerError` 500. -/
structure HttpError where
  code : Nat
  message : String
deriving DecidableEq, Repr

/-- Modelled from the spec: 401 error constructor. -/
def HttpError.unauthorized (msg : String) : HttpError :=
  { code := 401, message := msg }

/-- Modelled from the spec: 500 error constructor (used by the codec for
configuration and signing faults). -/
def HttpError.internalServerError (msg : String) : HttpError :=
  { code := 500, message := msg }

/-- generateJWT from src/utils/token.ts: fails 500 if the resolved
secret is empty, resolves expiresIn as the caller option over the
environment default (ENV.JWT.EXPIRES_IN || 1h), signs, and converts a
library signing failure into a 500 error. -/
def generateJWT (env : ProcessEnv) (now : Int) (payload : JSObj) (optExpiresIn : Option String) : Except HttpError TokenStr :=
  if jsIsEmpty (ENV_JWT_SECRET env) then
    Except.error (HttpError.internalServerError ("JWT secret not configured"))
  else
    let expiresIn := optExpiresIn.getD (jsOrS (ENV_JWT_EXPIRES_IN env) "1h")
    match jwtSign payload (ENV_JWT_SECRET env) now (some expiresIn) with
    | some tok => Except.ok tok
    | none => Except.error (HttpError.internalServerError ("Failed to generate JWT token"))

/-- generateUserToken from src/utils/token.ts. -/
def generateUserToken (env : ProcessEnv) (now : Int) (payload : JSObj) : Except HttpError TokenStr :=
  generateJWT env now payload (some (jsOrS (ENV_JWT_EXPIRES_IN env) "1h"))

/-- generateSystemToken from src/utils/token.ts: fixed system payload,
24h expiry. -/
def generateSystemToken (env : ProcessEnv) (now : Int) (serviceName : String) : Except HttpError TokenStr :=
  generateJWT env now [("system", JSVal.boolean true), ("service", JSVal.str serviceName)] (some ("24h"))

/-- validateToken from src/utils/token.ts: secret check, blank-token
check, verify, then the structure check; every error thrown inside the
try block (including the structure rejection, whose HttpError does not
carry a jsonwebtoken error name) is mapped by the catch block. -/
def validateToken (env : ProcessEnv) (tok : TokenStr) (now : Int) : Except HttpError JSObj :=
  if jsIsEmpty (ENV_JWT_SECRET env) then
    Except.error (HttpError.internalServerError ("JWT secret not configured"))
  else if tokenBlank tok then
    Except.error (HttpError.unauthorized ("Token is required"))
  else
    match jwtVerify tok (ENV_JWT_SECRET env) now with
    | Except.ok decoded =>
      if !(isUserToken decoded) && !(isSystemToken decoded) then
        Except.error (HttpError.unauthorized ("Invalid token"))
      else Except.ok decoded
    | Except.error JwtVerifyErr.tokenExpired =>
      Except.error (HttpError.unauthorized ("Token has expired"))
    | Except.error JwtVerifyErr.jsonWebTokenErr =>
      Except.error (HttpError.unauthorized ("Malformed token"))
    | Except.error JwtVerifyErr.notBeforeErr =>
      Except.error (HttpError.unauthorized ("Token not active yet"))

/-- validateUserToken from src/utils/token.ts: validateToken, then the
user type guard, then the truthiness check on the userId field. -/
def validateUserToken (env : ProcessEnv) (tok : TokenStr) (now : Int) : Except HttpError JSObj :=
  match validateToken env tok now with
  | Except.error e => Except.error e
  | Except.ok decoded =>
    if !(isUserToken decoded) then
      Except.error (HttpError.unauthorized ("Invalid token type - user token required"))
    else if !(match getField decoded ("userId") with
              | some v => jsTruthy v
              | none => false) then
      Except.error (HttpError.unauthorized ("Token missing required userId field"))
    else Except.ok decoded

/-- validateSystemToken from src/utils/token.ts. -/
def validateSystemToken (env : ProcessEnv) (tok : TokenStr) (now : Int) : Except HttpError JSObj :=
  match validateToken env tok now with
  | Except.error e => Except.error e
  | Except.ok decoded =>
    if !(isSystemToken decoded) then
      Except.error (HttpError.unauthorized ("Invalid token type - system token required"))
    else Except.ok decoded

/-- isTokenExpired from src/utils/token.ts: decode without verifying;
true when decode fails or the exp claim is absent or falsy; otherwise
the JS comparison exp < now (false when exp coerces to NaN). -/
def isTokenExpired (t : TokenStr) (now : Int) : Bool :=
  match jwtDecode t with
  | none => true
  | some decoded =>
    match getField decoded ("exp") with
    | none => true
    | some v =>
      if !(jsTruthy v) then true
      else
        match jsToNumber v with
        | some e => decide (e < now)
        | none => false

/-- extractToken from src/utils/token.ts: Bearer scheme extraction on
the raw header string. -/
def extractToken (authHeader : String) : Option String :=
  if !(jsStartsWith authHeader ("Bearer ")) then none
  else
    let token := jsTrim (jsDrop authHeader 7)
    if jsIsEmpty token then none else some token

/-- A request at the string level, as the three optional carriers the
extractor reads (authorization header value, query token, cookie
token). -/
structure StrRequest where
  authorization : Option String
  queryToken : Option String
  cookieToken : Option String
deriving DecidableEq, Repr

/-- extractTokenFromRequest from the auth middleware file: Bearer
extraction from the header when the header is truthy, falling through to
a truthy query token, then a truthy cookie token, else null. -/
def extractTokenFromRequest (req : StrRequest) : Option String :=
  let headerTok : Option String :=
    match req.authorization with
    | some h => if jsIsEmpty h then none else extractToken h
    | none => none
  match headerTok with
  | some t => some t
  | none =>
    let queryTok : Option String :=
      match req.queryToken with
      | some q => if jsIsEmpty q then none else some q
      | none => none
    match queryTok with
    | some t => some t
    | none =>
      match req.cookieToken with
      | some c => if jsIsEmpty c then none else some c
      | none => none

/-- The query-then-cookie tail of the extractor: a truthy query token,
else a truthy cookie token, else null. -/
def queryCookieFallback (req : StrRequest) : Option String :=
  match req.queryToken with
  | some q =>
    if jsIsEmpty q then
      match req.cookieToken with
      | some c => if jsIsEmpty c then none else some c
      | none => none
    else some q
  | none =>
    match req.cookieToken with
    | some c => if jsIsEmpty c then none else some c
    | none => none

/-- A request at the token level for the middleware guards: each carrier
either absent or already holding a token string the jsonwebtoken layer
will inspect.  The character-level parsing of the carriers (Bearer
scheme, truthiness) is the StrRequest development above; here a present
carrier stands for a carrier whose string-level extraction yielded a
token. -/
structure MwRequest where
  headerToken : Option TokenStr
  queryToken : Option TokenStr
  cookieToken : Option TokenStr
deriving DecidableEq, Repr

/-- Token-level counterpart of extractTokenFromRequest: first present
carrier in header, query, cookie order. -/
def mwExtractToken (req : MwRequest) : Option TokenStr :=
  match req.headerToken with
  | some t => some t
  | none =>
    match req.queryToken with
    | some t => some t
    | none => req.cookieToken

/-- The tag recorded in req.tokenType. -/
inductive TokenKind where
  | user
  | system
deriving DecidableEq, Repr

/-- The auth context a guard attaches to the request (req.authUser,
req.authSystem, req.authToken, req.tokenType), all initially absent. -/
structure AuthCtx where
  authUser : Option JSObj := none
  authSystem : Option JSObj := none
  authToken : Option TokenStr := none
  tokenType : Option TokenKind := none
deriving DecidableEq, Repr

/-- Outcome of a guard on one request: either next() was invoked with
the context it attached, or the request was terminated by sending an
error response. -/
inductive MwOutcome where
  | nextCalled (ctx : AuthCtx)
  | terminated (err : HttpError)
deriving DecidableEq, Repr

/-- requireUserAuth from the auth middleware file: extract, validate as
user token, attach user context; any thrown HttpError terminates the
request via sendError. -/
def requireUserAuth (env : ProcessEnv) (now : Int) (req : MwRequest) : MwOutcome :=
  match mwExtractToken req with
  | none => MwOutcome.terminated (HttpError.unauthorized ("User authentication token required"))
  | some token =>
    match validateUserToken env token now with
    | Except.ok decoded =>
      MwOutcome.nextCalled { authUser := some decoded, authToken := some token, tokenType := some TokenKind.user }
    | Except.error e => MwOutcome.terminated e

/-- requireSystemAuth from the auth middleware file. -/
def requireSystemAuth (env : ProcessEnv) (now : Int) (req : MwRequest) : MwOutcome :=
  match mwExtractToken req with
  | none => MwOutcome.terminated (HttpError.unauthorized ("System authentication token required"))
  | some token =>
    match validateSystemToken env token now with
    | Except.ok decoded =>
      MwOutcome.nextCalled { authSystem := some decoded, authToken := some token, tokenType := some TokenKind.system }
    | Except.error e => MwOutcome.terminated e

/-- optionalUserAuth from the auth middleware file: when a token is
present and not expired, try to validate it as a user token and attach
the context; every failure is swallowed and next() is invoked. -/
def optionalUserAuth (env : ProcessEnv) (now : Int) (req : MwRequest) : MwOutcome :=
  match mwExtractToken req with
  | some token =>
    if !(isTokenExpired token now) then
      match validateUserToken env token now with
      | Except.ok decoded =>
        MwOutcome.nextCalled { authUser := some decoded, authToken := some token, tokenType := some TokenKind.user }
      | Except.error _ => MwOutcome.nextCalled {}
    else MwOutcome.nextCalled {}
  | none => MwOutcome.nextCalled {}

/-- requireAuth from the auth middleware file: extract, reject a missing
token, reject an expired token before validation, then validate and
classify, user check first; an unclassifiable payload is rejected. -/
def requireAuth (env : ProcessEnv) (now : Int) (req : MwRequest) : MwOutcome :=
  match mwExtractToken req with
  | none => MwOutcome.terminated (HttpError.unauthorized ("Authentication token required"))
  | some token =>
    if isTokenExpired token now then
      MwOutcome.terminated (HttpError.unauthorized ("Token has expired"))
    else
      match validateToken env token now with
      | Except.error e => MwOutcome.terminated e
      | Except.ok decoded =>
        if isUserToken decoded then
          MwOutcome.nextCalled { authUser := some decoded, authToken := some token, tokenType := some TokenKind.user }
        else if isSystemToken decoded then
          MwOutcome.nextCalled { authSystem := some decoded, authToken := some token, tokenType := some TokenKind.system }
        else
          MwOutcome.terminated (HttpError.unauthorized ("Invalid token type"))

/-- The payload classification of spec section 4.2 as requireAuth and
validateToken realise it: the user predicate is evaluated first. -/
inductive Variant where
  | user
  | system
  | unknown
deriving DecidableEq, Repr

/-- classify: user check first, then system, else unknown. -/
def classify (o : JSObj) : Variant :=
  if isUserToken o then Variant.user
  else if isSystemToken o then Variant.system
  else Variant.unknown

/-- The label written into the X-Token-Type header:
req.tokenType || unknown. -/
def tokenTypeLabel : Option TokenKind → String
  | some TokenKind.user => "user"
  | some TokenKind.system => "system"
  | none => "unknown"

/-- What checkTokenExpiry does to the response: the headers it set, the
status it wrote (none - it never writes one), and whether next() was
invoked. -/
structure ExpiryCheckOut where
  headers : List (String × String)
  status : Option Nat
  nextInvoked : Bool
deriving DecidableEq, Repr

/-- checkTokenExpiry from the auth middleware file: when an auth context
and token are attached, decode without verification; when the decoded
exp claim is truthy and the remaining time is at most the threshold, set
the three warning headers; in every case invoke next() and leave the
status untouched. -/
def checkTokenExpiry (thresholdMinutes : Int) (now : Int) (req : AuthCtx) : ExpiryCheckOut :=
  let warnHeaders : List (String × String) :=
    if (req.authUser.isSome || req.authSystem.isSome) && req.authToken.isSome then
      match req.authToken with
      | none => []
      | some tok =>
        match jwtDecode tok with
        | none => []
        | some decoded =>
          match getField decoded ("exp") with
          | none => []
          | some v =>
            if !(jsTruthy v) then []
            else
              match jsToNumber v with
              | none => []
              | some e =>
                let timeUntilExpiry := e - now
                let thresholdSeconds := thresholdMinutes * 60
                if timeUntilExpiry ≤ thresholdSeconds then
                  [("X-Token-Expiry-Warning", "true"),
                   ("X-Token-Expires-In", toString timeUntilExpiry),
                   ("X-Token-Type", tokenTypeLabel req.tokenType)]
                else []
    else []
  { headers := warnHeaders, status := none, nextInvoked := true }

/-! Helper lemmas shared by the claim theorems. -/

theorem getField_append (P L : JSObj) (k : String) :
    getField (P ++ L) k = (getField P k).or (getField L k) := by
  unfold getField
  rw [List.find?_append]
  cases P.find? (fun kv => kv.1 == k) <;> simp

theorem getField_append_of_some (P L : JSObj) (k : String) (v : JSVal)
    (h : getField P k = some v) : getField (P ++ L) k = some v := by
  rw [getField_append, h]
  rfl

theorem getField_append_of_none (P L : JSObj) (k : String)
    (h : getField P k = none) : getField (P ++ L) k = getField L k := by
  rw [getField_append, h]
  cases getField L k <;> rfl

theorem ENV_JWT_SECRET_ne_empty (env : ProcessEnv) :
    jsIsEmpty (ENV_JWT_SECRET env) = false := by
  unfold ENV_JWT_SECRET jsOr
  cases env.JWT_SECRET with
  | none => decide
  | some s =>
    by_cases hs : jsIsEmpty s = true
    · simp [hs]; decide
    · simp only [Bool.not_eq_true] at hs
      simp [hs]

theorem jsOrS_ENV_EXPIRES (env : ProcessEnv) :
    jsOrS (ENV_JWT_EXPIRES_IN env) "1h" = ENV_JWT_EXPIRES_IN env := by
  unfold ENV_JWT_EXPIRES_IN jsOr jsOrS
  cases env.JWT_EXPIRES_IN with
  | none => decide
  | some s =>
    by_cases hs : jsIsEmpty s = true
    · simp [hs]; decide
    · simp only [Bool.not_eq_true] at hs
      simp [hs]

instance exceptDecEq {ε α : Type} [DecidableEq ε] [DecidableEq α] : DecidableEq (Except ε α) := by
  intro a b
  cases a with
  | ok x =>
    cases b with
    | ok y =>
      by_cases h : x = y
      · exact isTrue (by rw [h])
      · exact isFalse (by intro hh; cases hh; exact h rfl)
    | error f => exact isFalse (by intro hh; cases hh)
  | error e =>
    cases b with
    | ok y => exact isFalse (by intro hh; cases hh)
    | error f =>
      by_cases h : e = f
      · exact isTrue (by rw [h])
      · exact isFalse (by intro hh; cases hh; exact h rfl)

/-- The environment used as a failing input for the configuration
claim: JWT_SECRET is not set. -/
def envNoSecret : ProcessEnv := { JWT_SECRET := none, JWT_EXPIRES_IN := none }

/-- C1: the configuration surface never leaves the secret empty — when
the JWT_SECRET environment variable is absent it silently falls back to
the hardcoded placeholder, so with no configured secret generateJWT
still succeeds and signs with the placeholder instead of surfacing a
configuration error. -/
theorem generateJWT_silent_default_secret :
    (∀ env : ProcessEnv, jsIsEmpty (ENV_JWT_SECRET env) = false) ∧
    ENV_JWT_SECRET envNoSecret = "your-super-secret-jwt-key-here" ∧
    generateJWT envNoSecret 0 [("userId", JSVal.str ("u1"))] none =
      Except.ok (TokenStr.signed
        [("userId", JSVal.str ("u1")), ("iat", JSVal.num 0), ("exp", JSVal.num 86400)]
        "your-super-secret-jwt-key-here") := by
  refine ⟨ENV_JWT_SECRET_ne_empty, rfl, ?_⟩
  decide

/-- C2 counterexample: a decodable token whose expiry claim equals the
current time is reported as not expired by isTokenExpired, although the
claim states that an expiry at or before the current time yields
true. -/
theorem isTokenExpired_at_now_counterexample :
    isTokenExpired (TokenStr.signed [("userId", JSVal.str ("u1")), ("exp", JSVal.num 100)] "s") 100 = false := by
  rfl

/-- C2 (amended): isTokenExpired returns true when decoding fails, when
no expiry claim is present, or when the expiry claim is falsy; for a
truthy numeric expiry claim e it returns true exactly when e is strictly
before the current time (so a token whose expiry equals the current time
is reported as not expired). -/
theorem isTokenExpired_characterization :
    ∀ (t : TokenStr) (now : Int),
    (jwtDecode t = none → isTokenExpired t now = true) ∧
    (∀ c : JSObj, jwtDecode t = some c → getField c ("exp") = none → isTokenExpired t now = true) ∧
    (∀ (c : JSObj) (e : Int), jwtDecode t = some c → getField c ("exp") = some (JSVal.num e) →
      (isTokenExpired t now = true ↔ (e = 0 ∨ e < now))) := by
  intro t now
  refine ⟨?_, ?_, ?_⟩
  · intro h
    unfold isTokenExpired
    rw [h]
  · intro c hdec hexp
    simp only [isTokenExpired, hdec, hexp]
  · intro c e hdec hexp
    simp only [isTokenExpired, hdec, hexp, jsTruthy, jsToNumber]
    by_cases he : e = 0
    · subst he
      simp
    · simp [he]

/-- C2 witness: the amended characterization evaluated at an unparseable
string, a token without an expiry claim, and a token whose expiry claim
is strictly in the future. -/
theorem isTokenExpired_characterization_witness :
    isTokenExpired (TokenStr.garbage ("not-a-jwt")) 0 = true ∧
    isTokenExpired (TokenStr.signed [("userId", JSVal.str ("u1"))] "s") 0 = true ∧
    (isTokenExpired (TokenStr.signed [("exp", JSVal.num 3600)] "s") 0 = true ↔ ((3600 : Int) = 0 ∨ (3600 : Int) < 0)) := by
  refine ⟨?_, ?_, ?_⟩
  · exact (isTokenExpired_characterization (TokenStr.garbage ("not-a-jwt")) 0).1 rfl
  · exact (isTokenExpired_characterization (TokenStr.signed [("userId", JSVal.str ("u1"))] "s") 0).2.1
      [("userId", JSVal.str ("u1"))] rfl rfl
  · exact (isTokenExpired_characterization (TokenStr.signed [("exp", JSVal.num 3600)] "s") 0).2.2
      [("exp", JSVal.num 3600)] 3600 rfl rfl

theorem isUserToken_of_field (o : JSObj) (uid : String)
    (h : getField o ("userId") = some (JSVal.str uid)) : isUserToken o = true := by
  unfold isUserToken
  rw [h]

theorem getField_setField_self (o : JSObj) (k : String) (v : JSVal) :
    getField (setField o k v) k = some v := by
  induction o with
  | nil => simp [setField, getField]
  | cons kv rest ih =>
    by_cases h : (kv.1 == k) = true
    · simp [setField, h, getField, List.find?]
    · have h' : (kv.1 == k) = false := by simpa using h
      simpa [setField, h', getField, List.find?] using ih

theorem getField_setField_ne (o : JSObj) (k q : String) (v : JSVal)
    (hne : (q == k) = false) :
    getField (setField o k v) q = getField o q := by
  have hne' : (k == q) = false := by
    cases hqk : (k == q) with
    | false => rfl
    | true =>
      have hkq : k = q := eq_of_beq hqk
      subst hkq
      simp at hne
  induction o with
  | nil => simp [setField, getField, List.find?, hne']
  | cons kv rest ih =>
    by_cases h : (kv.1 == k) = true
    · have hkv : kv.1 = k := eq_of_beq h
      simp [setField, h, getField, List.find?, hne', hkv]
    · have h' : (kv.1 == k) = false := by simpa using h
      by_cases hq : (kv.1 == q) = true
      · simp [setField, h', getField, List.find?, hq]
      · have hq' : (kv.1 == q) = false := by simpa using hq
        simpa [setField, h', getField, List.find?, hq'] using ih

theorem generateUserToken_eq (env : ProcessEnv) (now t0 d : Int) (P : JSObj)
    (hexp : getField P ("exp") = none)
    (hiat : (getField P ("iat") = none ∧ t0 = now) ∨
            (getField P ("iat") = some (JSVal.num t0) ∧ t0 ≠ 0))
    (hms : msParse (ENV_JWT_EXPIRES_IN env) = some d) :
    generateUserToken env now P =
      Except.ok (TokenStr.signed
        (setField P ("iat") (JSVal.num t0) ++ [("exp", JSVal.num (t0 + d))])
        (ENV_JWT_SECRET env)) := by
  rcases hiat with ⟨h1, h2⟩ | ⟨h1, h2⟩
  · subst h2
    simp [generateUserToken, generateJWT, ENV_JWT_SECRET_ne_empty, jsOrS_ENV_EXPIRES,
      jwtSign, hexp, hms, h1, jsToNumber]
  · simp [generateUserToken, generateJWT, ENV_JWT_SECRET_ne_empty, jsOrS_ENV_EXPIRES,
      jwtSign, hexp, hms, h1, jsTruthy, h2, jsToNumber]

theorem validate_user_claims (env : ProcessEnv) (nv t0 d : Int) (P : JSObj) (uid : String)
    (huid : getField P ("userId") = some (JSVal.str uid))
    (hexp : getField P ("exp") = none)
    (hnbf : getField P ("nbf") = none)
    (hfresh : nv < t0 + d) :
    validateToken env
      (TokenStr.signed (setField P ("iat") (JSVal.num t0) ++ [("exp", JSVal.num (t0 + d))])
        (ENV_JWT_SECRET env)) nv
      = Except.ok (setField P ("iat") (JSVal.num t0) ++ [("exp", JSVal.num (t0 + d))]) ∧
    classify (setField P ("iat") (JSVal.num t0) ++ [("exp", JSVal.num (t0 + d))]) = Variant.user := by
  have huid' : getField (setField P ("iat") (JSVal.num t0) ++ [("exp", JSVal.num (t0 + d))]) ("userId")
      = some (JSVal.str uid) :=
    getField_append_of_some _ _ _ _
      (by rw [getField_setField_ne _ _ _ _ (by decide)]; exact huid)
  have hnbf' : getField (setField P ("iat") (JSVal.num t0) ++ [("exp", JSVal.num (t0 + d))]) ("nbf")
      = none := by
    rw [getField_append_of_none _ _ _
      (by rw [getField_setField_ne _ _ _ _ (by decide)]; exact hnbf)]
    rfl
  have hexp' : getField (setField P ("iat") (JSVal.num t0) ++ [("exp", JSVal.num (t0 + d))]) ("exp")
      = some (JSVal.num (t0 + d)) := by
    rw [getField_append_of_none _ _ _
      (by rw [getField_setField_ne _ _ _ _ (by decide)]; exact hexp)]
    rfl
  constructor
  · simp only [validateToken, ENV_JWT_SECRET_ne_empty, Bool.false_eq_true, if_false,
      tokenBlank, jwtVerify, if_pos rfl, hnbf', hexp']
    rw [if_neg (by omega : ¬ nv ≥ t0 + d)]
    simp [isUserToken_of_field _ _ huid']
  · unfold classify
    rw [isUserToken_of_field _ _ huid']
    simp

/-- C3: signing a valid User payload (string userId, no registered
exp or nbf claims of its own, and an iat that is either absent — the
reference timestamp is then the signing time — or a truthy number,
which jsonwebtoken uses instead of the signing time to compute the
expiry) and verifying with the same configured secret before the
resulting expiry succeeds, and the decoded payload classifies as User;
signing a System payload via generateSystemToken and verifying before
its 24h expiry classifies as System. -/
theorem signVerifyClassify_roundtrip :
    (∀ (env : ProcessEnv) (now nv t0 : Int) (P : JSObj) (uid : String) (d : Int),
      getField P ("userId") = some (JSVal.str uid) →
      getField P ("exp") = none →
      getField P ("nbf") = none →
      ((getField P ("iat") = none ∧ t0 = now) ∨
       (getField P ("iat") = some (JSVal.num t0) ∧ t0 ≠ 0)) →
      msParse (ENV_JWT_EXPIRES_IN env) = some d →
      nv < t0 + d →
      ∃ tok : TokenStr, generateUserToken env now P = Except.ok tok ∧
        ∃ dec : JSObj, validateToken env tok nv = Except.ok dec ∧ classify dec = Variant.user) ∧
    (∀ (env : ProcessEnv) (now nv : Int) (svc : String),
      nv < now + 86400 →
      ∃ tok : TokenStr, generateSystemToken env now svc = Except.ok tok ∧
        ∃ dec : JSObj, validateToken env tok nv = Except.ok dec ∧ classify dec = Variant.system) := by
  constructor
  · intro env now nv t0 P uid d huid hexp hnbf hiat hms hfresh
    obtain ⟨hval, hcls⟩ := validate_user_claims env nv t0 d P uid huid hexp hnbf hfresh
    exact ⟨_, generateUserToken_eq env now t0 d P hexp hiat hms, _, hval, hcls⟩
  · intro env now nv svc hfresh
    have h24 : msParse ("24h") = some 86400 := by decide
    have husr : isUserToken
        [("system", JSVal.boolean true), ("service", JSVal.str svc),
         ("iat", JSVal.num now), ("exp", JSVal.num (now + 86400))] = false := rfl
    have hsys : isSystemToken
        [("system", JSVal.boolean true), ("service", JSVal.str svc),
         ("iat", JSVal.num now), ("exp", JSVal.num (now + 86400))] = true := rfl
    have hflat : setField [("system", JSVal.boolean true), ("service", JSVal.str svc)] ("iat") (JSVal.num now)
        ++ [("exp", JSVal.num (now + 86400))]
        = [("system", JSVal.boolean true), ("service", JSVal.str svc),
           ("iat", JSVal.num now), ("exp", JSVal.num (now + 86400))] := rfl
    refine ⟨TokenStr.signed
        [("system", JSVal.boolean true), ("service", JSVal.str svc),
         ("iat", JSVal.num now), ("exp", JSVal.num (now + 86400))] (ENV_JWT_SECRET env), ?_, ?_⟩
    · rw [show (generateSystemToken env now svc : Except HttpError TokenStr)
          = generateJWT env now [("system", JSVal.boolean true), ("service", JSVal.str svc)] (some ("24h"))
          from rfl]
      simp only [generateJWT, ENV_JWT_SECRET_ne_empty, Bool.false_eq_true, if_false,
        Option.getD_some, jwtSign, h24]
      rw [← hflat]
      simp [getField, List.find?, jsToNumber]
    · refine ⟨[("system", JSVal.boolean true), ("service", JSVal.str svc),
         ("iat", JSVal.num now), ("exp", JSVal.num (now + 86400))], ?_, ?_⟩
      · simp only [validateToken, ENV_JWT_SECRET_ne_empty, Bool.false_eq_true, if_false,
          tokenBlank, jwtVerify, if_pos rfl]
        rw [show getField
            [("system", JSVal.boolean true), ("service", JSVal.str svc),
             ("iat", JSVal.num now), ("exp", JSVal.num (now + 86400))] ("nbf") = none from rfl]
        rw [show getField
            [("system", JSVal.boolean true), ("service", JSVal.str svc),
             ("iat", JSVal.num now), ("exp", JSVal.num (now + 86400))] ("exp")
            = some (JSVal.num (now + 86400)) from rfl]
        have hlt : ¬ nv ≥ now + 86400 := by omega
        simp [husr, hsys, hlt]
      · simp [classify, husr, hsys]

/-- The concrete environment used by the witnesses: a configured secret,
no expiry override. -/
def envStd : ProcessEnv := { JWT_SECRET := some ("s3cr3t"), JWT_EXPIRES_IN := none }

/-- A concrete valid User payload for the witnesses. -/
def userPayload0 : JSObj := [("userId", JSVal.str ("u1")), ("role", JSVal.str ("admin"))]

/-- A concrete valid User payload carrying its own iat claim: the
expiry is computed relative to this iat (50), not the signing time. -/
def userPayloadIat : JSObj := [("userId", JSVal.str ("u2")), ("iat", JSVal.num 50)]

/-- C3 witness: the round trip evaluated at a concrete iat-free user
payload (verified ten seconds after issuance), at a concrete
iat-carrying user payload (signed at time 1000000, whose expiry
50 + 86400 still lies after the verification time 100), and at a
concrete service name. -/
theorem signVerifyClassify_roundtrip_witness :
    (∃ tok : TokenStr, generateUserToken envStd 0 userPayload0 = Except.ok tok ∧
      ∃ dec : JSObj, validateToken envStd tok 10 = Except.ok dec ∧ classify dec = Variant.user) ∧
    (∃ tok : TokenStr, generateUserToken envStd 1000000 userPayloadIat = Except.ok tok ∧
      ∃ dec : JSObj, validateToken envStd tok 100 = Except.ok dec ∧ classify dec = Variant.user) ∧
    (∃ tok : TokenStr, generateSystemToken envStd 0 ("weather-service") = Except.ok tok ∧
      ∃ dec : JSObj, validateToken envStd tok 10 = Except.ok dec ∧ classify dec = Variant.system) := by
  refine ⟨?_, ?_, ?_⟩
  · exact signVerifyClassify_roundtrip.1 envStd 0 10 0 userPayload0 ("u1") 86400
      (by decide) (by decide) (by decide) (Or.inl ⟨by decide, rfl⟩) (by decide) (by decide)
  · exact signVerifyClassify_roundtrip.1 envStd 1000000 100 50 userPayloadIat ("u2") 86400
      (by decide) (by decide) (by decide) (Or.inr ⟨by decide, by decide⟩) (by decide) (by decide)
  · exact signVerifyClassify_roundtrip.2 envStd 0 10 ("weather-service") (by decide)

theorem isTokenExpired_true_of_past (c : JSObj) (secret : String) (now e : Int)
    (hexp : getField c ("exp") = some (JSVal.num e)) (hpast : e < now) :
    isTokenExpired (TokenStr.signed c secret) now = true := by
  simp only [isTokenExpired, jwtDecode, hexp, jsTruthy, jsToNumber]
  by_cases h0 : e = 0
  · simp [h0]
  · simp [h0, hpast]

theorem isTokenExpired_false_of_future (c : JSObj) (secret : String) (now e : Int)
    (hexp : getField c ("exp") = some (JSVal.num e)) (h0 : e ≠ 0) (hfut : ¬ e < now) :
    isTokenExpired (TokenStr.signed c secret) now = false := by
  simp only [isTokenExpired, jwtDecode, hexp, jsTruthy, jsToNumber]
  simp [h0, hfut]

theorem validateToken_ok (env : ProcessEnv) (now : Int) (c : JSObj) (e : Int)
    (hnbf : getField c ("nbf") = none)
    (hexp : getField c ("exp") = some (JSVal.num e))
    (hfresh : now < e)
    (hstruct : (isUserToken c || isSystemToken c) = true) :
    validateToken env (TokenStr.signed c (ENV_JWT_SECRET env)) now = Except.ok c := by
  have hshape : (!isUserToken c && !isSystemToken c) = false := by
    cases hu : isUserToken c <;> cases hs : isSystemToken c <;> simp_all
  have hlt : ¬ now ≥ e := by omega
  simp only [validateToken, ENV_JWT_SECRET_ne_empty, Bool.false_eq_true, if_false,
    tokenBlank, jwtVerify, if_pos rfl, hnbf, hexp]
  simp [hlt, hshape]

/-- C4: a request carrying a structurally valid but expired token is
terminated by requireAuth with the expired rejection coming from the
pre-classification expiry check, not with a wrong-kind rejection, and no
auth context is attached. -/
theorem requireAuth_expired_rejection :
    ∀ (env : ProcessEnv) (now : Int) (req : MwRequest) (c : JSObj) (e : Int) (secret : String),
    mwExtractToken req = some (TokenStr.signed c secret) →
    getField c ("exp") = some (JSVal.num e) →
    e < now →
    (isUserToken c || isSystemToken c) = true →
    requireAuth env now req = MwOutcome.terminated (HttpError.unauthorized ("Token has expired")) := by
  intro env now req c e secret hx hexp hpast hshape
  have hexpired := isTokenExpired_true_of_past c secret now e hexp hpast
  simp [requireAuth, hx, hexpired]

/-- C4 witness: a correctly shaped user token that expired at time 100,
checked at time 200, carried in the header. -/
theorem requireAuth_expired_rejection_witness :
    requireAuth envStd 200
      { headerToken := some (TokenStr.signed [("userId", JSVal.str ("u1")), ("exp", JSVal.num 100)] "s3cr3t"),
        queryToken := none, cookieToken := none }
      = MwOutcome.terminated (HttpError.unauthorized ("Token has expired")) := by
  exact requireAuth_expired_rejection envStd 200 _
    [("userId", JSVal.str ("u1")), ("exp", JSVal.num 100)] 100 ("s3cr3t")
    rfl rfl (by decide) (by decide)

/-- A payload that is simultaneously User-shaped (string userId) and
System-shaped (system true with a service name), unexpired. -/
def bothShapedClaims : JSObj :=
  [("userId", JSVal.str ("u1")), ("system", JSVal.boolean true),
   ("service", JSVal.str ("svc")), ("exp", JSVal.num 1000)]

/-- C5 counterexample: a correctly signed, unexpired token whose payload
is a valid User payload in the claim's sense (string-typed userId with
additional fields permitted) is NOT rejected by requireSystemAuth with
401 — because its additional fields also satisfy the System predicate,
requireSystemAuth accepts it and continues with a system context. -/
theorem requireSystemAuth_bothShaped_counterexample :
    isUserToken bothShapedClaims = true ∧
    isTokenExpired (TokenStr.signed bothShapedClaims ("s3cr3t")) 10 = false ∧
    requireSystemAuth envStd 10
      { headerToken := some (TokenStr.signed bothShapedClaims ("s3cr3t")),
        queryToken := none, cookieToken := none }
      = MwOutcome.nextCalled
          { authUser := none, authSystem := some bothShapedClaims,
            authToken := some (TokenStr.signed bothShapedClaims ("s3cr3t")),
            tokenType := some TokenKind.system } := by
  refine ⟨by decide, by decide, by decide⟩

/-- C5 (amended): for tokens whose payload satisfies exactly one of the
two structural predicates — correctly signed and unexpired — the guards
reject the wrong kind with 401 and requireAuth continues with the
matching tag: requireUserAuth terminates a System-only token,
requireSystemAuth terminates a User-only token, and requireAuth
continues with user tag on a User token and system tag on a System-only
token. -/
theorem wrongKind_rejection :
    (∀ (env : ProcessEnv) (now : Int) (req : MwRequest) (c : JSObj) (e : Int),
      mwExtractToken req = some (TokenStr.signed c (ENV_JWT_SECRET env)) →
      isSystemToken c = true → isUserToken c = false →
      getField c ("nbf") = none → getField c ("exp") = some (JSVal.num e) → now < e →
      requireUserAuth env now req
        = MwOutcome.terminated (HttpError.unauthorized ("Invalid token type - user token required"))) ∧
    (∀ (env : ProcessEnv) (now : Int) (req : MwRequest) (c : JSObj) (e : Int),
      mwExtractToken req = some (TokenStr.signed c (ENV_JWT_SECRET env)) →
      isUserToken c = true → isSystemToken c = false →
      getField c ("nbf") = none → getField c ("exp") = some (JSVal.num e) → now < e →
      requireSystemAuth env now req
        = MwOutcome.terminated (HttpError.unauthorized ("Invalid token type - system token required"))) ∧
    (∀ (env : ProcessEnv) (now : Int) (req : MwRequest) (c : JSObj) (e : Int),
      mwExtractToken req = some (TokenStr.signed c (ENV_JWT_SECRET env)) →
      isUserToken c = true →
      getField c ("nbf") = none → getField c ("exp") = some (JSVal.num e) → 0 ≤ now → now < e →
      requireAuth env now req = MwOutcome.nextCalled
        { authUser := some c, authToken := some (TokenStr.signed c (ENV_JWT_SECRET env)),
          tokenType := some TokenKind.user }) ∧
    (∀ (env : ProcessEnv) (now : Int) (req : MwRequest) (c : JSObj) (e : Int),
      mwExtractToken req = some (TokenStr.signed c (ENV_JWT_SECRET env)) →
      isSystemToken c = true → isUserToken c = false →
      getField c ("nbf") = none → getField c ("exp") = some (JSVal.num e) → 0 ≤ now → now < e →
      requireAuth env now req = MwOutcome.nextCalled
        { authSystem := some c, authToken := some (TokenStr.signed c (ENV_JWT_SECRET env)),
          tokenType := some TokenKind.system }) := by
  refine ⟨?_, ?_, ?_, ?_⟩
  · intro env now req c e hx hsys husr hnbf hexp hfresh
    have hok := validateToken_ok env now c e hnbf hexp hfresh (by simp [hsys])
    simp [requireUserAuth, hx, validateUserToken, hok, husr]
  · intro env now req c e hx husr hsys hnbf hexp hfresh
    have hok := validateToken_ok env now c e hnbf hexp hfresh (by simp [husr])
    simp [requireSystemAuth, hx, validateSystemToken, hok, hsys]
  · intro env now req c e hx husr hnbf hexp hnow hfresh
    have hok := validateToken_ok env now c e hnbf hexp hfresh (by simp [husr])
    have hunexp := isTokenExpired_false_of_future c (ENV_JWT_SECRET env) now e hexp
      (by omega) (by omega)
    simp [requireAuth, hx, hunexp, hok, husr]
  · intro env now req c e hx hsys husr hnbf hexp hnow hfresh
    have hok := validateToken_ok env now c e hnbf hexp hfresh (by simp [hsys])
    have hunexp := isTokenExpired_false_of_future c (ENV_JWT_SECRET env) now e hexp
      (by omega) (by omega)
    simp [requireAuth, hx, hunexp, hok, husr, hsys]

/-- A System-only payload for the witnesses. -/
def sysClaims0 : JSObj :=
  [("system", JSVal.boolean true), ("service", JSVal.str ("svc")), ("exp", JSVal.num 1000)]

/-- A User-only payload for the witnesses. -/
def userClaims0 : JSObj :=
  [("userId", JSVal.str ("u1")), ("role", JSVal.str ("admin")), ("exp", JSVal.num 1000)]

/-- C5 witness: the four amended statements evaluated on concrete
User-only and System-only tokens carried in the header at time 10. -/
theorem wrongKind_rejection_witness :
    requireUserAuth envStd 10
      { headerToken := some (TokenStr.signed sysClaims0 (ENV_JWT_SECRET envStd)),
        queryToken := none, cookieToken := none }
      = MwOutcome.terminated (HttpError.unauthorized ("Invalid token type - user token required")) ∧
    requireSystemAuth envStd 10
      { headerToken := some (TokenStr.signed userClaims0 (ENV_JWT_SECRET envStd)),
        queryToken := none, cookieToken := none }
      = MwOutcome.terminated (HttpError.unauthorized ("Invalid token type - system token required")) ∧
    requireAuth envStd 10
      { headerToken := some (TokenStr.signed userClaims0 (ENV_JWT_SECRET envStd)),
        queryToken := none, cookieToken := none }
      = MwOutcome.nextCalled
        { authUser := some userClaims0,
          authToken := some (TokenStr.signed userClaims0 (ENV_JWT_SECRET envStd)),
          tokenType := some TokenKind.user } ∧
    requireAuth envStd 10
      { headerToken := some (TokenStr.signed sysClaims0 (ENV_JWT_SECRET envStd)),
        queryToken := none, cookieToken := none }
      = MwOutcome.nextCalled
        { authSystem := some sysClaims0,
          authToken := some (TokenStr.signed sysClaims0 (ENV_JWT_SECRET envStd)),
          tokenType := some TokenKind.system } := by
  refine ⟨?_, ?_, ?_, ?_⟩
  · exact wrongKind_rejection.1 envStd 10 _ sysClaims0 1000 rfl (by decide) (by decide)
      (by decide) (by decide) (by decide)
  · exact wrongKind_rejection.2.1 envStd 10 _ userClaims0 1000 rfl (by decide) (by decide)
      (by decide) (by decide) (by decide)
  · exact wrongKind_rejection.2.2.1 envStd 10 _ userClaims0 1000 rfl (by decide)
      (by decide) (by decide) (by decide) (by decide)
  · exact wrongKind_rejection.2.2.2 envStd 10 _ sysClaims0 1000 rfl (by decide) (by decide)
      (by decide) (by decide) (by decide) (by decide)

/-- C6: a decoded payload satisfying both the User and the System
predicate is classified by requireAuth as User — the user context is
attached, the token type is tagged user, and no system context is
attached — because the user check is evaluated first. -/
theorem requireAuth_user_tiebreak :
    ∀ (env : ProcessEnv) (now : Int) (req : MwRequest) (c : JSObj) (e : Int),
    mwExtractToken req = some (TokenStr.signed c (ENV_JWT_SECRET env)) →
    isUserToken c = true → isSystemToken c = true →
    getField c ("nbf") = none → getField c ("exp") = some (JSVal.num e) →
    0 ≤ now → now < e →
    requireAuth env now req = MwOutcome.nextCalled
      { authUser := some c, authSystem := none,
        authToken := some (TokenStr.signed c (ENV_JWT_SECRET env)),
        tokenType := some TokenKind.user } := by
  intro env now req c e hx husr hsys hnbf hexp hnow hfresh
  have hok := validateToken_ok env now c e hnbf hexp hfresh (by simp [husr])
  have hunexp := isTokenExpired_false_of_future c (ENV_JWT_SECRET env) now e hexp
    (by omega) (by omega)
  simp [requireAuth, hx, hunexp, hok, husr]

/-- C6 witness: the tie-break evaluated on the concrete both-shaped
payload, carried in the header at time 10. -/
theorem requireAuth_user_tiebreak_witness :
    requireAuth envStd 10
      { headerToken := some (TokenStr.signed bothShapedClaims (ENV_JWT_SECRET envStd)),
        queryToken := none, cookieToken := none }
      = MwOutcome.nextCalled
        { authUser := some bothShapedClaims, authSystem := none,
          authToken := some (TokenStr.signed bothShapedClaims (ENV_JWT_SECRET envStd)),
          tokenType := some TokenKind.user } := by
  exact requireAuth_user_tiebreak envStd 10 _ bothShapedClaims 1000 rfl (by decide)
    (by decide) (by decide) (by decide) (by decide) (by decide)

/-- C7: optionalUserAuth invokes the next handler on every request; it
attaches a user context only when a token was extracted, the token is
not expired, and it validates as a user token; on every failure it
continues with a completely empty context. -/
theorem optionalUserAuth_never_terminates :
    ∀ (env : ProcessEnv) (now : Int) (req : MwRequest),
    ∃ ctx : AuthCtx, optionalUserAuth env now req = MwOutcome.nextCalled ctx ∧
      (ctx = {} ∨
       ∃ (tok : TokenStr) (d : JSObj),
         mwExtractToken req = some tok ∧
         isTokenExpired tok now = false ∧
         validateUserToken env tok now = Except.ok d ∧
         ctx = { authUser := some d, authToken := some tok, tokenType := some TokenKind.user }) := by
  intro env now req
  cases hx : mwExtractToken req with
  | none => exact ⟨{}, by simp [optionalUserAuth, hx], Or.inl rfl⟩
  | some tok =>
    cases hexp : isTokenExpired tok now with
    | true => exact ⟨{}, by simp [optionalUserAuth, hx, hexp], Or.inl rfl⟩
    | false =>
      cases hv : validateUserToken env tok now with
      | error e => exact ⟨{}, by simp [optionalUserAuth, hx, hexp, hv], Or.inl rfl⟩
      | ok d =>
        exact ⟨{ authUser := some d, authToken := some tok, tokenType := some TokenKind.user },
          by simp [optionalUserAuth, hx, hexp, hv],
          Or.inr ⟨tok, d, rfl, hexp, hv, rfl⟩⟩

theorem jsIsEmpty_eq_empty (h : String) (he : jsIsEmpty h = true) : h = "" := by
  unfold jsIsEmpty at he
  cases h with
  | mk data =>
    cases data with
    | nil => rfl
    | cons a l => simp [List.isEmpty] at he

/-- C8: the extractor returns the first non-empty candidate in header,
query, cookie order — the header candidate being Bearer extraction
(exact scheme, trimmed remainder, null when empty) — and null when every
carrier fails. -/
theorem extractTokenFromRequest_precedence :
    ∀ req : StrRequest,
    (∀ h t, req.authorization = some h → extractToken h = some t →
      extractTokenFromRequest req = some t) ∧
    ((∀ h, req.authorization = some h → extractToken h = none) →
      (∀ q, req.queryToken = some q → jsIsEmpty q = false →
        extractTokenFromRequest req = some q) ∧
      ((∀ q, req.queryToken = some q → jsIsEmpty q = true) →
        (∀ c, req.cookieToken = some c → jsIsEmpty c = false →
          extractTokenFromRequest req = some c) ∧
        ((∀ c, req.cookieToken = some c → jsIsEmpty c = true) →
          extractTokenFromRequest req = none))) ∧
    (∀ s : String, extractToken ("Bearer " ++ s)
      = (if jsIsEmpty (jsTrim s) then none else some (jsTrim s))) ∧
    (∀ h : String, jsStartsWith h ("Bearer ") = false → extractToken h = none) := by
  intro req
  obtain ⟨auth, query, cookie⟩ := req
  refine ⟨?_, ?_, ?_, ?_⟩
  · intro h t hauth hex
    subst hauth
    have hne : jsIsEmpty h = false := by
      cases hisem : jsIsEmpty h
      · rfl
      · rw [jsIsEmpty_eq_empty h hisem] at hex
        rw [show extractToken ("") = (none : Option String) from by decide] at hex
        exact Option.noConfusion hex
    simp [extractTokenFromRequest, hne, hex]
  · intro hf
    refine ⟨?_, ?_⟩
    · intro q hq hqne
      subst hq
      cases auth with
      | none => simp [extractTokenFromRequest, hqne]
      | some h => simp [extractTokenFromRequest, hf h rfl, hqne]
    · intro hq2
      refine ⟨?_, ?_⟩
      · intro cc hc hcne
        subst hc
        cases auth with
        | none =>
          cases query with
          | none => simp [extractTokenFromRequest, hcne]
          | some q => simp [extractTokenFromRequest, hq2 q rfl, hcne]
        | some h =>
          cases query with
          | none => simp [extractTokenFromRequest, hf h rfl, hcne]
          | some q => simp [extractTokenFromRequest, hf h rfl, hq2 q rfl, hcne]
      · intro hc2
        cases auth with
        | none =>
          cases query with
          | none =>
            cases cookie with
            | none => simp [extractTokenFromRequest]
            | some cc => simp [extractTokenFromRequest, hc2 cc rfl]
          | some q =>
            cases cookie with
            | none => simp [extractTokenFromRequest, hq2 q rfl]
            | some cc => simp [extractTokenFromRequest, hq2 q rfl, hc2 cc rfl]
        | some h =>
          cases query with
          | none =>
            cases cookie with
            | none => simp [extractTokenFromRequest, hf h rfl]
            | some cc => simp [extractTokenFromRequest, hf h rfl, hc2 cc rfl]
          | some q =>
            cases cookie with
            | none => simp [extractTokenFromRequest, hf h rfl, hq2 q rfl]
            | some cc => simp [extractTokenFromRequest, hf h rfl, hq2 q rfl, hc2 cc rfl]
  · intro s
    have hpre : jsStartsWith ("Bearer " ++ s) ("Bearer ") = true := by
      unfold jsStartsWith
      rw [String.data_append]
      exact List.isPrefixOf_iff_prefix.mpr (List.prefix_append _ _)
    have hdrop : jsDrop ("Bearer " ++ s) 7 = s := by
      unfold jsDrop
      rw [String.data_append]
      rw [List.drop_left' (by rfl : ("Bearer ").data.length = 7)]
    unfold extractToken
    rw [hpre, hdrop]
    simp
  · intro h hns
    simp [extractToken, hns]

/-- C8 witness: header, query and cookie all populated with different
tokens — the header's Bearer token wins. -/
theorem extractTokenFromRequest_precedence_witness :
    extractTokenFromRequest
      { authorization := some ("Bearer tokA"), queryToken := some ("tokB"),
        cookieToken := some ("tokC") } = some ("tokA") := by
  exact (extractTokenFromRequest_precedence
    { authorization := some ("Bearer tokA"), queryToken := some ("tokB"),
      cookieToken := some ("tokC") }).1 ("Bearer tokA") ("tokA") rfl (by decide)

/-- C10: a present Authorization header that yields no token under
Bearer extraction does not make the extractor return null — the
extractor falls through to the query-then-cookie tail. -/
theorem extractTokenFromRequest_malformed_header_fallthrough :
    ∀ (req : StrRequest) (h : String),
    req.authorization = some h → extractToken h = none →
    extractTokenFromRequest req = queryCookieFallback req := by
  intro req h hauth hex
  obtain ⟨auth, query, cookie⟩ := req
  simp only at hauth
  subst hauth
  cases query with
  | none =>
    cases cookie with
    | none => simp [extractTokenFromRequest, queryCookieFallback, hex]
    | some cc => simp [extractTokenFromRequest, queryCookieFallback, hex]
  | some q =>
    by_cases hq : jsIsEmpty q = true
    · cases cookie with
      | none => simp [extractTokenFromRequest, queryCookieFallback, hex, hq]
      | some cc => simp [extractTokenFromRequest, queryCookieFallback, hex, hq]
    · simp only [Bool.not_eq_true] at hq
      simp [extractTokenFromRequest, queryCookieFallback, hex, hq]

/-- C10 witness: a header with the wrong scheme, with a populated query
token; the extractor returns the query token. -/
theorem extractTokenFromRequest_malformed_header_fallthrough_witness :
    extractTokenFromRequest
      { authorization := some ("Token abc"), queryToken := some ("tokB"),
        cookieToken := some ("tokC") }
      = queryCookieFallback
      { authorization := some ("Token abc"), queryToken := some ("tokB"),
        cookieToken := some ("tokC") } ∧
    queryCookieFallback
      { authorization := some ("Token abc"), queryToken := some ("tokB"),
        cookieToken := some ("tokC") } = some ("tokB") := by
  refine ⟨?_, by decide⟩
  exact extractTokenFromRequest_malformed_header_fallthrough _ ("Token abc") rfl (by decide)

/-- C9: checkTokenExpiry always invokes the next handler and never
writes a status; with an attached context and token whose decoded expiry
claim is a truthy number e, it sets exactly the three warning headers
when e - now is at most the threshold in seconds and no headers when it
is beyond; with no attached context, no token, or an undecodable token
it sets no headers. -/
theorem checkTokenExpiry_headers_frame :
    ∀ (thr now : Int) (req : AuthCtx),
    (checkTokenExpiry thr now req).nextInvoked = true ∧
    (checkTokenExpiry thr now req).status = none ∧
    (∀ (tok : TokenStr) (c : JSObj) (e : Int),
      req.authToken = some tok →
      (req.authUser.isSome || req.authSystem.isSome) = true →
      jwtDecode tok = some c →
      getField c ("exp") = some (JSVal.num e) → e ≠ 0 →
      (e - now ≤ thr * 60 →
        (checkTokenExpiry thr now req).headers =
          [("X-Token-Expiry-Warning", "true"),
           ("X-Token-Expires-In", toString (e - now)),
           ("X-Token-Type", tokenTypeLabel req.tokenType)]) ∧
      (thr * 60 < e - now → (checkTokenExpiry thr now req).headers = [])) ∧
    ((req.authUser.isSome || req.authSystem.isSome) = false →
      (checkTokenExpiry thr now req).headers = []) ∧
    (∀ tok : TokenStr, req.authToken = some tok → jwtDecode tok = none →
      (checkTokenExpiry thr now req).headers = []) ∧
    (req.authToken = none → (checkTokenExpiry thr now req).headers = []) := by
  intro thr now req
  refine ⟨rfl, rfl, ?_, ?_, ?_, ?_⟩
  · intro tok c e htok hctx hdec hexp he0
    constructor
    · intro hle
      simp [checkTokenExpiry, htok, hctx, hdec, hexp, jsTruthy, jsToNumber, he0, hle]
    · intro hgt
      have hnle : ¬ (e - now ≤ thr * 60) := by omega
      simp [checkTokenExpiry, htok, hctx, hdec, hexp, jsTruthy, jsToNumber, he0, hnle]
  · intro hctx
    simp [checkTokenExpiry, hctx]
  · intro tok htok hdec
    cases hctx : (req.authUser.isSome || req.authSystem.isSome) with
    | false => simp [checkTokenExpiry, hctx]
    | true => simp [checkTokenExpiry, htok, hctx, hdec]
  · intro htok
    simp [checkTokenExpiry, htok]

/-- The auth context used by the C9 witness: a user context with a token
expiring at time 600. -/
def warnCtx : AuthCtx :=
  { authUser := some [("userId", JSVal.str ("u1"))],
    authSystem := none,
    authToken := some (TokenStr.signed [("userId", JSVal.str ("u1")), ("exp", JSVal.num 600)] "s3cr3t"),
    tokenType := some TokenKind.user }

/-- The auth context used by the C9 witness: same shape but the token
expires at time 1800. -/
def calmCtx : AuthCtx :=
  { authUser := some [("userId", JSVal.str ("u1"))],
    authSystem := none,
    authToken := some (TokenStr.signed [("userId", JSVal.str ("u1")), ("exp", JSVal.num 1800)] "s3cr3t"),
    tokenType := some TokenKind.user }

/-- C9 witness: with a 15 minute threshold at time 0, a token expiring
at 600 (10 minutes out) gets the three headers with 600 remaining
seconds, and a token expiring at 1800 (30 minutes out) gets none; both
invoke next. -/
theorem checkTokenExpiry_headers_frame_witness :
    (checkTokenExpiry 15 0 warnCtx).nextInvoked = true ∧
    (checkTokenExpiry 15 0 warnCtx).headers =
      [("X-Token-Expiry-Warning", "true"),
       ("X-Token-Expires-In", toString ((600 : Int) - 0)),
       ("X-Token-Type", tokenTypeLabel warnCtx.tokenType)] ∧
    (checkTokenExpiry 15 0 calmCtx).headers = [] := by
  refine ⟨(checkTokenExpiry_headers_frame 15 0 warnCtx).1, ?_, ?_⟩
  · exact (((checkTokenExpiry_headers_frame 15 0 warnCtx).2.2.1
      (TokenStr.signed [("userId", JSVal.str ("u1")), ("exp", JSVal.num 600)] "s3cr3t")
      [("userId", JSVal.str ("u1")), ("exp", JSVal.num 600)] 600
      rfl rfl rfl rfl (by decide)).1 (by decide))
  · exact (((checkTokenExpiry_headers_frame 15 0 calmCtx).2.2.1
      (TokenStr.signed [("userId", JSVal.str ("u1")), ("exp", JSVal.num 1800)] "s3cr3t")
      [("userId", JSVal.str ("u1")), ("exp", JSVal.num 1800)] 1800
      rfl rfl rfl rfl (by decide)).2 (by decide))
